import Mathlib

/-!
Verification development for the brmh-backend scaffold
(workspace 9c142145-b2eb-4543-ae07-5bfc37bc5fb7): a Flask entrypoint
(app.py), a route-collection module (routes/generatedapi.py) and an
entity-schema module (models/generatedschema.py).

The embedding has three layers, each translated from the source files:

1. Tokenization layer. Python groups statements by indentation; the
   CPython tokenizer keeps a stack of indentation levels and rejects a
   file whose dedent matches no enclosing level (IndentationError,
   raised at compile time, before any statement of the file runs).
   Each source file is embedded as the list of indentation columns of
   its logical lines, and the stack check is defined below.

2. Module-execution layer. The top-level statements of app.py and
   routes/generatedapi.py are embedded as a statement list; executing a
   module threads the set of bound names, the (single) Flask app object
   with its route table, and a trace of externally visible effects.
   Route registration follows Flask add_url_rule: registering a second
   view function under an endpoint name already mapped to a different
   function raises AssertionError.

3. Handler layer. Each view-function body in the source is a pure
   function returning jsonify of a fixed dict; they are embedded as
   functions from requests to responses.
-/

namespace BrmhBackend

/-- Python values, as far as this scaffold uses them: None, booleans,
integers, strings, lists and string-keyed dicts (insertion order kept,
as in Python 3.7+ and in the JSON that jsonify emits). -/
inductive PyVal where
  | pynone
  | pybool (b : Bool)
  | pyint (n : Int)
  | pystr (s : String)
  | pylist (xs : List PyVal)
  | pydict (xs : List (String × PyVal))

/-- Python exceptions that the three modules can raise at import or
startup time. -/
inductive PyErr where
  | indentationError
  | nameError (n : String)
  | assertionError (endpointName : String)
  | valueError
  | moduleNotFoundError (m : String)
  deriving DecidableEq

/-- HTTP methods used by the scaffold. -/
inductive Method where
  | GET
  | POST
  deriving DecidableEq

/-- An HTTP request: method, path and (possibly absent) JSON body. -/
structure Request where
  method : Method
  path : String
  body : PyVal

/-- An HTTP response: status code and JSON body. -/
structure Response where
  status : Nat
  body : PyVal

/-- Flask jsonify applied to a dict literal: a 200 response whose body
is that dict. -/
def jsonify (v : PyVal) : Response :=
  { status := 200, body := v }

/-! ## Handler bodies (routes/generatedapi.py lines 4-27, app.py lines 16-18)

Flask view functions take no parameters and read the request, if at
all, through the imported request proxy; they are embedded as functions
of the request so that dependence on it is expressible. None of the
bodies below mentions its argument, exactly as in the source. -/

/-- Body of the first def of the name used for /api/test (GET), from
routes/generatedapi.py lines 4-7. -/
def _api_test_GET : Request → Response := fun _ =>
  jsonify (PyVal.pydict [("message", PyVal.pystr "Test the API connectivity")])

/-- Body of the second def of the name used for /api/test (POST), from
routes/generatedapi.py lines 9-12. -/
def _api_test_POST : Request → Response := fun _ =>
  jsonify (PyVal.pydict [("message", PyVal.pystr "Test sending data to the API")])

/-- Body of _api_health, routes/generatedapi.py lines 14-17. -/
def _api_health : Request → Response := fun _ =>
  jsonify (PyVal.pydict [("message", PyVal.pystr "Check the health status of the API")])

/-- Body of _api_version, routes/generatedapi.py lines 19-22. -/
def _api_version : Request → Response := fun _ =>
  jsonify (PyVal.pydict [("message", PyVal.pystr "Get the current version of the API")])

/-- Body of _api_endpoints, routes/generatedapi.py lines 24-27. -/
def _api_endpoints : Request → Response := fun _ =>
  jsonify (PyVal.pydict [("message", PyVal.pystr "List all available API endpoints")])

/-- Body of health, app.py lines 16-18. -/
def health : Request → Response := fun _ =>
  jsonify (PyVal.pydict [("status", PyVal.pystr "OK"), ("service", PyVal.pystr "pinterest")])

/-- Identifiers for the six view functions, so that route tables have
decidable equality; handlerFun maps each to its body. Two ids are kept
for the two distinct function objects both defined under the name
_api_test. -/
inductive HandlerId where
  | apiTestGet
  | apiTestPost
  | apiHealth
  | apiVersion
  | apiEndpoints
  | healthFn
  deriving DecidableEq

/-- The view-function body associated with each handler id. -/
def handlerFun : HandlerId → Request → Response
  | HandlerId.apiTestGet => _api_test_GET
  | HandlerId.apiTestPost => _api_test_POST
  | HandlerId.apiHealth => _api_health
  | HandlerId.apiVersion => _api_version
  | HandlerId.apiEndpoints => _api_endpoints
  | HandlerId.healthFn => health

/-! ## Tokenization layer: the CPython indentation-stack check

Per the Python language reference (section on indentation), the
tokenizer keeps a stack of indentation levels starting at [0]; a larger
indent is pushed; on a smaller indent the stack is popped and the new
indent must equal a level remaining on the stack, otherwise the file is
rejected with IndentationError before anything in it executes.
Whitespace-only and comment-only physical lines generate no tokens, and
lines inside open brackets continue the logical line, so neither
contributes an entry below. -/

/-- Pop the indentation stack until the incoming indent matches a
remaining level; Option.none means the dedent matches no level and the
file is rejected. -/
def dedentTo : List Nat → Nat → Option (List Nat)
  | [], _ => Option.none
  | t :: s, i =>
    if i = t then some (t :: s)
    else if i < t then dedentTo s i
    else Option.none

/-- Run the indentation-stack check over the logical-line indents of a
file; true means the file tokenizes, false means IndentationError. -/
def indentsOk : List Nat → List Nat → Bool
  | _, [] => true
  | [], _ :: _ => false
  | t :: s, i :: rest =>
    if t < i then indentsOk (i :: t :: s) rest
    else
      match dedentTo (t :: s) i with
      | some st => indentsOk st rest
      | Option.none => false

/-- Logical-line indentation columns of models/generatedschema.py:
two imports, the dataclass decorator and the class header at column 0;
the fourteen class-body assignments (to self.id, self.username,
self.email, self.password, self.full_name, self.profile_image,
self.bio, self.location, self.website, self.boards, self.followers,
self.following, self.created_at, self.last_login) at column 8; then the
classmethod decorator and the from_dict header at column 4, its return
at column 8, the to_dict header at column 4 and its return at column 8
(the dict literal spans an open brace, one logical line). -/
def generatedschemaIndents : List Nat :=
  [0, 0, 0, 0] ++ List.replicate 14 8 ++ [4, 4, 8, 4, 8]

/-- Logical-line indentation columns of routes/generatedapi.py: two
module imports at column 0, then five blocks of decorator line, def
line (column 0) and return line (column 4); comment-only lines
contribute nothing. -/
def generatedapiIndents : List Nat :=
  [0, 0] ++ [0, 0, 4] ++ [0, 0, 4] ++ [0, 0, 4] ++ [0, 0, 4] ++ [0, 0, 4]

/-- Logical-line indentation columns of app.py: four imports, the
load_dotenv call, the app assignment, the CORS call, the two lines
importing the route module, the health decorator and def at column 0
with its return at column 4, and the main guard at column 0 with three
statements at column 4. -/
def appIndents : List Nat :=
  [0, 0, 0, 0, 0, 0, 0, 0, 0, 0, 0, 4, 0, 4, 4, 4]

/-! ## Module-execution layer -/

/-- Externally visible effects of running the modules: the filesystem
search-and-read that load_dotenv performs for a .env file, and binding
the listening socket in app.run. -/
inductive Effect where
  | dotenvRead
  | listen (port : Int)
  deriving DecidableEq

/-- The Flask application object: its url map (rule path, allowed
methods, endpoint name) and its view-function registry (endpoint name
to function). -/
structure FlaskApp where
  urlMap : List (String × List Method × String)
  viewFunctions : List (String × HandlerId)
  deriving DecidableEq

/-- A freshly constructed Flask application (app.py line 8). -/
def emptyFlaskApp : FlaskApp :=
  { urlMap := [], viewFunctions := [] }

/-- Flask add_url_rule, the semantics of the app.route decorator: if
the endpoint name is already mapped to a different view function,
registration raises AssertionError (view function mapping is
overwriting an existing endpoint function); otherwise the rule and the
view function are recorded. -/
def add_url_rule (a : FlaskApp) (path : String) (ms : List Method)
    (endpointName : String) (f : HandlerId) : Except PyErr FlaskApp :=
  match a.viewFunctions.lookup endpointName with
  | some old =>
    if old = f then
      Except.ok { a with urlMap := a.urlMap ++ [(path, ms, endpointName)] }
    else
      Except.error (PyErr.assertionError endpointName)
  | Option.none =>
    Except.ok { urlMap := a.urlMap ++ [(path, ms, endpointName)],
                viewFunctions := a.viewFunctions ++ [(endpointName, f)] }

/-- Route dispatch: find the first url rule matching method and path
and look up its endpoint in the view-function registry. -/
def dispatch (a : FlaskApp) (m : Method) (p : String) : Option HandlerId :=
  match a.urlMap.find? (fun r => decide (r.1 = p) && decide (m ∈ r.2.1)) with
  | some r => a.viewFunctions.lookup r.2.2
  | Option.none => Option.none

/-- Global interpreter state threaded through module execution: the
Flask app object once app.py has created it, and the effect trace. -/
structure GState where
  flaskApp : Option FlaskApp
  effects : List Effect
  deriving DecidableEq

/-- State before any module statement has run. -/
def startGState : GState :=
  { flaskApp := Option.none, effects := [] }

/-- Top-level Python statements occurring in app.py and
routes/generatedapi.py. -/
inductive Stmt where
  | importExt (names : List String)
  | importLocal (moduleName : String) (binds : List String)
  | callLoadDotenv
  | assignFlaskApp (n : String)
  | callCORS (n : String)
  | route (appName : String) (path : String) (ms : List Method)
      (fnName : String) (h : HandlerId)
  | mainGuard

/-- Importing a module of this repository: given the module name and
the current global state, either the state after the module body ran or
the propagated exception with the state at the point of failure. -/
abbrev LocalImporter :=
  String → GState → Except (PyErr × GState) GState

/-- os.environ.get with a default: the variable as a Python string when
set, the default value otherwise (app.py line 21 passes the int 5000 as
the default). -/
def environGet (env : String → Option String) (k : String) (d : PyVal) : PyVal :=
  match env k with
  | some v => PyVal.pystr v
  | Option.none => d

/-- Value of a decimal digit character, if it is one. -/
def decDigit (c : Char) : Option Nat :=
  if 48 ≤ c.toNat ∧ c.toNat ≤ 57 then some (c.toNat - 48) else Option.none

/-- Accumulate a decimal number over a list of digit characters. -/
def decNatAux : List Char → Nat → Option Nat
  | [], acc => some acc
  | c :: cs, acc =>
    match decDigit c with
    | some d => decNatAux cs (acc * 10 + d)
    | Option.none => Option.none

/-- Parse a nonempty all-digit character list as a natural number. -/
def decNat : List Char → Option Nat
  | [] => Option.none
  | cs => decNatAux cs 0

/-- Parse a string as a decimal integer, with an optional leading
minus sign. -/
def decIntOfStr (s : String) : Option Int :=
  match s.data with
  | [] => Option.none
  | c :: cs =>
    if c = Char.ofNat 45 then (decNat cs).map (fun n => -(n : Int))
    else (decNat (c :: cs)).map (fun n => (n : Int))

/-- The int builtin on the values environGet can produce here: an int
is returned unchanged, a decimal string is parsed, anything else
raises ValueError (int() also tolerates surrounding whitespace and
underscores, which no value here contains; that tolerance is not
modelled). -/
def pyIntOf : PyVal → Except PyErr Int
  | PyVal.pyint n => Except.ok n
  | PyVal.pystr s =>
    match decIntOfStr s with
    | some n => Except.ok n
    | Option.none => Except.error PyErr.valueError
  | _ => Except.error PyErr.valueError

/-- Execute a list of top-level statements: thread the bound names of
the module namespace and the global state, stopping at the first
exception. Name resolution is as in Python: a decorator or call whose
name is not bound in the module namespace raises NameError, which is
why the route statements of generatedapi can only succeed if its own
namespace binds the app name. The main guard (app.py lines 20-23) runs
only when the module is executed as the main program: it computes
int(os.environ.get(PORT, 5000)) and binds the listening socket. -/
def execStmts (imp : LocalImporter) (asMain : Bool) (env : String → Option String) :
    List Stmt → List String → GState → Except (PyErr × GState) (List String × GState)
  | [], ns, g => Except.ok (ns, g)
  | Stmt.importExt names :: rest, ns, g =>
    execStmts imp asMain env rest (ns ++ names) g
  | Stmt.importLocal m binds :: rest, ns, g =>
    match imp m g with
    | Except.ok g2 => execStmts imp asMain env rest (ns ++ binds) g2
    | Except.error e => Except.error e
  | Stmt.callLoadDotenv :: rest, ns, g =>
    if "load_dotenv" ∈ ns then
      execStmts imp asMain env rest ns { g with effects := g.effects ++ [Effect.dotenvRead] }
    else Except.error (PyErr.nameError "load_dotenv", g)
  | Stmt.assignFlaskApp n :: rest, ns, g =>
    if "Flask" ∈ ns then
      execStmts imp asMain env rest (ns ++ [n]) { g with flaskApp := some emptyFlaskApp }
    else Except.error (PyErr.nameError "Flask", g)
  | Stmt.callCORS n :: rest, ns, g =>
    if "CORS" ∈ ns ∧ n ∈ ns then execStmts imp asMain env rest ns g
    else Except.error (PyErr.nameError "CORS", g)
  | Stmt.route appName path ms fnName h :: rest, ns, g =>
    if appName ∈ ns then
      match g.flaskApp with
      | some a =>
        match add_url_rule a path ms fnName h with
        | Except.ok a2 =>
          execStmts imp asMain env rest (ns ++ [fnName]) { g with flaskApp := some a2 }
        | Except.error e => Except.error (e, g)
      | Option.none => Except.error (PyErr.nameError appName, g)
    else Except.error (PyErr.nameError appName, g)
  | Stmt.mainGuard :: rest, ns, g =>
    if asMain then
      match pyIntOf (environGet env "PORT" (PyVal.pyint 5000)) with
      | Except.ok p =>
        execStmts imp asMain env rest ns { g with effects := g.effects ++ [Effect.listen p] }
      | Except.error e => Except.error (e, g)
    else execStmts imp asMain env rest ns g

/-- Importing models/generatedschema.py: the file is first compiled,
and compilation runs the indentation-stack check on its logical lines;
when the check fails the import raises IndentationError and no
statement of the file runs. The success branch is never reached on this
file (the check fails, proved below), so the class body is not
modelled further. -/
def importModelsGeneratedschema : GState → Except (PyErr × GState) GState := fun g =>
  if indentsOk [0] generatedschemaIndents then
    Except.ok g
  else
    Except.error (PyErr.indentationError, g)

/-- The kind of error importing models/generatedschema.py produces, if
any. -/
def schemaImportErr : Option PyErr :=
  match importModelsGeneratedschema startGState with
  | Except.ok _ => Option.none
  | Except.error (e, _) => some e

/-- The importer visible to routes/generatedapi.py: its only local
module is models.generatedschema. -/
def schemaOnlyImporter : LocalImporter := fun m g =>
  if m = "models.generatedschema" then importModelsGeneratedschema g
  else Except.error (PyErr.moduleNotFoundError m, g)

/-- Top-level statements of routes/generatedapi.py, in source order:
the flask import, the schema import, then the five decorated defs. The
two defs for /api/test both carry the function name _api_test. -/
def generatedapiStmts : List Stmt :=
  [ Stmt.importExt ["jsonify", "request"],
    Stmt.importLocal "models.generatedschema" ["GeneratedSchema"],
    Stmt.route "app" "/api/test" [Method.GET] "_api_test" HandlerId.apiTestGet,
    Stmt.route "app" "/api/test" [Method.POST] "_api_test" HandlerId.apiTestPost,
    Stmt.route "app" "/api/health" [Method.GET] "_api_health" HandlerId.apiHealth,
    Stmt.route "app" "/api/version" [Method.GET] "_api_version" HandlerId.apiVersion,
    Stmt.route "app" "/api/endpoints" [Method.GET] "_api_endpoints" HandlerId.apiEndpoints ]

/-- Executing routes/generatedapi.py (its file tokenizes: see
generatedapiIndents): a fresh module namespace, the real importer. -/
def runGeneratedapiModule (env : String → Option String) (g : GState) :
    Except (PyErr × GState) (List String × GState) :=
  execStmts schemaOnlyImporter false env generatedapiStmts [] g

/-- Hypothetical importer under which the schema import succeeds and
changes nothing; used to isolate what routes/generatedapi.py would do
next if models/generatedschema.py were importable. -/
def stubSchemaImporter : LocalImporter := fun m g =>
  if m = "models.generatedschema" then Except.ok g
  else Except.error (PyErr.moduleNotFoundError m, g)

/-- Executing routes/generatedapi.py under the hypothetical importer in
which the schema import succeeds. -/
def runGeneratedapiIfSchemaOk (env : String → Option String) (g : GState) :
    Except (PyErr × GState) (List String × GState) :=
  execStmts stubSchemaImporter false env generatedapiStmts [] g

/-- The importer visible to app.py: its only local import is
routes.generatedapi, whose execution uses the real schema importer. -/
def appImporter (env : String → Option String) : LocalImporter := fun m g =>
  if m = "routes.generatedapi" then
    match runGeneratedapiModule env g with
    | Except.ok (_, g2) => Except.ok g2
    | Except.error e => Except.error e
  else Except.error (PyErr.moduleNotFoundError m, g)

/-- Top-level statements of app.py, in source order: the four imports,
load_dotenv(), the Flask app assignment, CORS(app), the route import
written twice in the source (lines 12 and 13), the health route
(app.route with no methods argument defaults to GET; the automatic
HEAD and OPTIONS are not modelled), and the main guard. -/
def appStmts : List Stmt :=
  [ Stmt.importExt ["Flask", "jsonify"],
    Stmt.importExt ["CORS"],
    Stmt.importExt ["os"],
    Stmt.importExt ["load_dotenv"],
    Stmt.callLoadDotenv,
    Stmt.assignFlaskApp "app",
    Stmt.callCORS "app",
    Stmt.importLocal "routes.generatedapi" ["generatedapi"],
    Stmt.importLocal "routes.generatedapi" ["generatedapi"],
    Stmt.route "app" "/health" [Method.GET] "health" HandlerId.healthFn,
    Stmt.mainGuard ]

/-- Executing app.py (its file tokenizes: see appIndents), as the main
program or not, under a given environment. -/
def runAppModule (asMain : Bool) (env : String → Option String) :
    Except (PyErr × GState) (List String × GState) :=
  execStmts (appImporter env) asMain env appStmts [] startGState

/-- The exception a module run ended with, if any. -/
def resultErr : Except (PyErr × GState) (List String × GState) → Option PyErr
  | Except.ok _ => Option.none
  | Except.error (e, _) => some e

/-- The Flask app object at the end of a module run, also at the point
of failure for a run that raised. -/
def resultApp : Except (PyErr × GState) (List String × GState) → Option FlaskApp
  | Except.ok (_, g) => g.flaskApp
  | Except.error (_, g) => g.flaskApp

/-- The effect trace of a module run, up to the point of failure for a
run that raised. -/
def resultEffects : Except (PyErr × GState) (List String × GState) → List Effect
  | Except.ok (_, g) => g.effects
  | Except.error (_, g) => g.effects

/-- The state app.py reaches when its route import raises: the Flask
app exists with an empty route table, and the only effect so far is the
dotenv read. -/
def appCrashState : GState :=
  { flaskApp := some emptyFlaskApp, effects := [Effect.dotenvRead] }

theorem runAppModule_crash (asMain : Bool) (env : String → Option String) :
    runAppModule asMain env = Except.error (PyErr.indentationError, appCrashState) := rfl

/-! ## Claim theorems -/

/-- Claim C1 (code_bug): the spec requires the round-trip
to_mapping(from_mapping(d)) to agree with d on the known keys and be
null elsewhere; in the code this can never be evaluated, because
models/generatedschema.py fails the tokenization check (its class body
is at column 8 and its method block dedents to column 4), so importing
it — a precondition of calling from_dict or to_dict — raises
IndentationError. -/
theorem roundtrip_unreachable_schema_import_fails :
    importModelsGeneratedschema startGState
      = Except.error (PyErr.indentationError, startGState) ∧
    indentsOk [0] generatedschemaIndents = false :=
  ⟨rfl, rfl⟩

/-- Claim C2 (code_bug): the spec requires from_mapping(data) to
succeed for every mapping, ignoring unknown keys; in the code no call
to from_dict can ever run, because importing
models/generatedschema.py raises IndentationError from every starting
state. -/
theorem from_dict_unreachable_import_always_fails :
    ∀ (g : GState),
      importModelsGeneratedschema g = Except.error (PyErr.indentationError, g) :=
  fun _ => rfl

/-- Claim C3 (code_bug): the spec requires each of the five stub
routes to answer 200 with its literal body; in the code the run of
app.py raises IndentationError at the route import, the Flask route
table at the crash is empty, and dispatch on an empty table matches no
method or path — so no /api request is ever answered. -/
theorem stub_routes_never_registered :
    ∀ (asMain : Bool) (env : String → Option String) (m : Method) (p : String),
      resultErr (runAppModule asMain env) = some PyErr.indentationError ∧
      resultApp (runAppModule asMain env) = some emptyFlaskApp ∧
      dispatch emptyFlaskApp m p = Option.none :=
  fun _ _ _ _ => ⟨rfl, rfl, rfl⟩

/-- Claim C4 (code_bug): the spec requires GET /health to answer 200
with the fixed status/service body; in the code the health route is
registered only after the route import that raises IndentationError,
so the crash-time route table is empty and no /health request is ever
answered — even though the handler body itself does produce exactly
the documented response. -/
theorem health_route_never_registered :
    ∀ (asMain : Bool) (env : String → Option String) (r : Request),
      resultErr (runAppModule asMain env) = some PyErr.indentationError ∧
      resultApp (runAppModule asMain env) = some emptyFlaskApp ∧
      dispatch emptyFlaskApp Method.GET "/health" = Option.none ∧
      health r = jsonify (PyVal.pydict
        [("status", PyVal.pystr "OK"), ("service", PyVal.pystr "pinterest")]) :=
  fun _ _ _ => ⟨rfl, rfl, rfl, rfl⟩

/-- Claim C5, counterexample: the claim says the second def of
_api_test silently shadows the first at the route, producing undefined
dispatch rather than a loud failure; under Flask add_url_rule
semantics, registering the POST handler under the endpoint name
already mapped to the GET handler instead fails loudly with
AssertionError. -/
theorem duplicate_api_test_registration_fails_loudly :
    (add_url_rule emptyFlaskApp "/api/test" [Method.GET] "_api_test"
        HandlerId.apiTestGet).bind
      (fun a => add_url_rule a "/api/test" [Method.POST] "_api_test"
        HandlerId.apiTestPost)
      = Except.error (PyErr.assertionError "_api_test") :=
  rfl

/-- The Flask app state after the GET /api/test handler alone has been
registered under the endpoint name _api_test. -/
def appAfterFirstApiTest : FlaskApp :=
  { urlMap := [("/api/test", [Method.GET], "_api_test")],
    viewFunctions := [("_api_test", HandlerId.apiTestGet)] }

/-- Claim C5 (corrected): the GET and POST handlers for /api/test are
indeed declared with the identical function name _api_test (statements
3 and 4 of the module), but registering both does not silently shadow:
after the first registration succeeds, the second fails loudly with
AssertionError — and in the module as written neither decorator ever
runs, since executing routes/generatedapi.py raises IndentationError
at its schema import, before any route statement. -/
theorem api_test_handlers_share_name_but_never_register :
    ∀ (env : String → Option String) (g : GState),
      generatedapiStmts[2]? = some (Stmt.route "app" "/api/test" [Method.GET]
        "_api_test" HandlerId.apiTestGet) ∧
      generatedapiStmts[3]? = some (Stmt.route "app" "/api/test" [Method.POST]
        "_api_test" HandlerId.apiTestPost) ∧
      add_url_rule emptyFlaskApp "/api/test" [Method.GET] "_api_test"
        HandlerId.apiTestGet = Except.ok appAfterFirstApiTest ∧
      add_url_rule appAfterFirstApiTest "/api/test" [Method.POST] "_api_test"
        HandlerId.apiTestPost = Except.error (PyErr.assertionError "_api_test") ∧
      runGeneratedapiModule env g = Except.error (PyErr.indentationError, g) :=
  fun _ _ => ⟨rfl, rfl, rfl, rfl, rfl⟩

/-- Claim C6 (confirmed): the POST /api/test handler body never reads
the request, so its response — and in particular its body — is the
same for any two requests, and equals the fixed message dict. -/
theorem post_api_test_payload_independent :
    ∀ (r1 r2 : Request),
      _api_test_POST r1 = _api_test_POST r2 ∧
      handlerFun HandlerId.apiTestPost r1 = handlerFun HandlerId.apiTestPost r2 ∧
      (_api_test_POST r1).body = PyVal.pydict
        [("message", PyVal.pystr "Test sending data to the API")] :=
  fun _ _ => ⟨rfl, rfl, rfl⟩

/-- Claim C7 (code_bug): the spec says a process started as main
listens on int(PORT), default 5000; in the code the run as main
crashes with IndentationError before the main guard, so no listen
effect ever occurs for any environment — even though the port
expression itself evaluates to 5000 when PORT is unset and to the
integer value of PORT when set. -/
theorem startup_crashes_before_listening :
    ∀ (env : String → Option String) (p : Int),
      resultErr (runAppModule true env) = some PyErr.indentationError ∧
      Effect.listen p ∉ resultEffects (runAppModule true env) ∧
      pyIntOf (environGet (fun _ => Option.none) "PORT" (PyVal.pyint 5000))
        = Except.ok 5000 ∧
      pyIntOf (environGet (fun k => if k = "PORT" then some "8080" else Option.none)
          "PORT" (PyVal.pyint 5000))
        = Except.ok 8080 :=
  fun env p =>
    ⟨rfl,
     by
       rw [runAppModule_crash true env]
       simp [resultEffects, appCrashState],
     rfl, rfl⟩

/-- Claim C8, counterexample: the claim says no operation reads any
file; the startup run of app.py performs the load_dotenv
search-and-read of a .env file (the dotenvRead effect) before
anything else. -/
theorem startup_performs_dotenv_file_read :
    Effect.dotenvRead ∈ resultEffects (runAppModule false (fun _ => Option.none)) := by
  rw [runAppModule_crash false (fun _ => Option.none)]
  simp [resultEffects, appCrashState]

/-- Claim C8 (corrected): apart from the load_dotenv filesystem read
at startup, no run of the system touches a file or database: the
effect trace of every run of app.py, main or not and under any
environment, is exactly the single dotenv read. -/
theorem dotenv_read_is_only_effect :
    ∀ (asMain : Bool) (env : String → Option String),
      resultEffects (runAppModule asMain env) = [Effect.dotenvRead] :=
  fun _ _ => rfl

/-- Claim C9, counterexample: the claim says importing
routes/generatedapi.py raises a NameError for app; the import does
raise, but with IndentationError — propagated from its schema import
at statement 2 — not with a NameError for app. -/
theorem generatedapi_import_error_is_not_name_error :
    resultErr (runGeneratedapiModule (fun _ => Option.none) startGState)
      = some PyErr.indentationError ∧
    resultErr (runGeneratedapiModule (fun _ => Option.none) startGState)
      ≠ some (PyErr.nameError "app") :=
  ⟨rfl, by decide⟩

/-- Claim C9 (corrected): importing routes/generatedapi.py always
raises — with IndentationError from the schema import; had that import
succeeded, the very next statement would raise NameError for the
unbound name app — so the Flask route table is left untouched, none of
the five /api endpoints is ever registered, and the route import makes
the run of app.py itself fail. -/
theorem generatedapi_import_fails_and_registers_nothing :
    ∀ (env : String → Option String) (g : GState),
      runGeneratedapiModule env g = Except.error (PyErr.indentationError, g) ∧
      runGeneratedapiIfSchemaOk env g = Except.error (PyErr.nameError "app", g) ∧
      resultApp (runGeneratedapiModule env g) = g.flaskApp ∧
      resultErr (runAppModule false env) = some PyErr.indentationError :=
  fun _ _ => ⟨rfl, rfl, rfl, rfl⟩

/-- Claim C10, counterexample: the claim says the class-body
assignments execute at class-definition time and fail on the unbound
names self and data; importing models/generatedschema.py does fail,
but with IndentationError at tokenization — before any statement of
the file executes — not with a NameError for data or self. -/
theorem schema_error_is_parse_time_not_execution :
    schemaImportErr = some PyErr.indentationError ∧
    schemaImportErr ≠ some (PyErr.nameError "data") ∧
    schemaImportErr ≠ some (PyErr.nameError "self") :=
  ⟨rfl, by decide, by decide⟩

/-- Claim C10 (corrected): models/generatedschema.py never tokenizes:
its class body sits at column 8 and the following method block dedents
to column 4, which matches no level on the indentation stack [8, 0],
so the import raises IndentationError and from_dict and to_dict are
unreachable dead code. -/
theorem schema_file_fails_tokenization :
    indentsOk [0] generatedschemaIndents = false ∧
    dedentTo [8, 0] 4 = Option.none ∧
    schemaImportErr = some PyErr.indentationError :=
  ⟨rfl, rfl, rfl⟩

end BrmhBackend
